import Mathlib

/-
Verification of the run-indexed statistics store and its report generators
(reframe/frontend/statistics.py, class TestStats).

The store `_alltasks` is embedded as `List (List TaskRecord)` (a list of runs, each
an ordered list of task records).  The process-wide current-run index owned by
the runtime (`rt.runtime().current_run`) is passed explicitly as a `Nat`
parameter.  Operations that can raise Python exceptions are embedded as
`Except PyError` values.
-/

/-- Kinds of Python exceptions that the embedded code can raise. -/
inductive PyError where
  /-- StatisticsError raised by `TestStats.tasks` on an out-of-range run index. -/
  | statisticsError : PyError
  /-- AttributeError from dereferencing an attribute of `None`. -/
  | attributeError : PyError
  /-- IndexError from an out-of-range list subscript. -/
  | indexError : PyError
  /-- Failure raised by the external diagnostic formatter `format_exception`. -/
  | formatError : PyError
deriving DecidableEq, Repr

/-- System partition object: only the fields read by statistics.py
(`fullname` and `scheduler.registered_name`). -/
structure Partition where
  fullname : String
  scheduler_name : String
deriving DecidableEq, Repr

/-- Programming environment object: only `name` is read. -/
structure Environ where
  name : String
deriving DecidableEq, Repr

/-- Job object attached to a check: `jobid` and `nodelist` are read. -/
structure Job where
  jobid : String
  nodelist : Option (List String)
deriving DecidableEq, Repr

/-- The check (test case definition) referenced by a task record, restricted to
the fields statistics.py reads.  `info` models the externally defined
`check.info()` identity string (modelled from the spec: `Test <identity> was
retried ...`); `stdout`/`stderr`/`build_stdout`/`build_stderr` model the
evaluated deferred values of the same names.  A performance value maps a key to
the reference tuple `(value, low, high, threshold, unit)`, embedded as a list
of rendered strings so that `ref[0]` and `ref[4]` keep their Python indexing
behaviour (IndexError when absent). -/
structure Check where
  name : String
  descr : String
  tags : List String
  maintainers : List String
  current_partition : Option Partition
  current_environ : Option Environ
  job : Option Job
  build_job : Bool
  stdout : String
  stderr : String
  build_stdout : String
  build_stderr : String
  stagedir : String
  outputdir : String
  info : String
  num_tasks : Nat
  perfvalues : List (String × List String)
deriving DecidableEq, Repr

/-- One task record as consumed by TestStats: the check it ran, its outcome,
the optional exception info (the payload handed to `format_exception`,
embedded as an opaque string), and the failing stage. -/
structure TaskRecord where
  check : Check
  failed : Bool
  exc_info : Option String
  failed_stage : String
deriving DecidableEq, Repr

/-- Decidable equality for `Except`, so that concrete runs of the embedded
operations can be checked by `decide`. -/
instance instDecEqExcept {ε α : Type} [DecidableEq ε] [DecidableEq α] :
    DecidableEq (Except ε α) := fun x y =>
  match x, y with
  | Except.error a, Except.error b =>
      if h : a = b then Decidable.isTrue (congrArg Except.error h)
      else Decidable.isFalse (fun hc => h (Except.error.inj hc))
  | Except.error _, Except.ok _ => Decidable.isFalse (fun hc => Except.noConfusion hc)
  | Except.ok _, Except.error _ => Decidable.isFalse (fun hc => Except.noConfusion hc)
  | Except.ok a, Except.ok b =>
      if h : a = b then Decidable.isTrue (congrArg Except.ok h)
      else Decidable.isFalse (fun hc => h (Except.ok.inj hc))

/-- The diagnostic formatter `format_exception` imported from
reframe.core.exceptions (external to statistics.py); it is passed in as a
parameter and may itself raise. -/
def Fmt : Type := String → Except PyError String

/-- Python list subscript `l[i]` for a possibly negative index `i`:
`some` element on success, `none` where Python raises IndexError. -/
def pyGet (l : List (List TaskRecord)) (i : Int) : Option (List TaskRecord) :=
  if 0 ≤ i then
    (if i < (l.length : Int) then some (l.getD i.toNat []) else none)
  else
    (if 0 ≤ i + (l.length : Int) then some (l.getD (i + (l.length : Int)).toNat []) else none)

/-- Normalisation of a Python index to a plain list position. -/
def pyIdx (n : Nat) (i : Int) : Nat :=
  if 0 ≤ i then i.toNat else (i + (n : Int)).toNat

/-- TestStats.tasks: `self._alltasks[run]`, turning IndexError into a
StatisticsError (`no such run`). -/
def tasks (rs : List (List TaskRecord)) (run : Int) : Except PyError (List TaskRecord) :=
  match pyGet rs run with
  | some ts => Except.ok ts
  | none => Except.error PyError.statisticsError

/-- TestStats.failures: the failed tasks of a run. -/
def failures (rs : List (List TaskRecord)) (run : Int) : Except PyError (List TaskRecord) :=
  match tasks rs run with
  | Except.error e => Except.error e
  | Except.ok ts => Except.ok (ts.filter (fun t => t.failed))

/-- TestStats.num_cases: the number of tasks of a run. -/
def num_cases (rs : List (List TaskRecord)) (run : Int) : Except PyError Nat :=
  match tasks rs run with
  | Except.error e => Except.error e
  | Except.ok ts => Except.ok ts.length

/-- TestStats.add_task: if the runtime's current run index equals the number
of stored runs, append one new empty run; then append the task to the run at
the current run index (IndexError if that index is still out of range). -/
def add_task (cr : Nat) (t : TaskRecord) (rs : List (List TaskRecord)) :
    Except PyError (List (List TaskRecord)) :=
  let rs1 := if cr = rs.length then rs ++ [[]] else rs
  if cr < rs1.length then Except.ok (rs1.set cr (rs1.getD cr [] ++ [t]))
  else Except.error PyError.indexError

/-- String of `n` repeated copies of `s` (Python `n * s` for strings). -/
def strRep (s : String) (n : Nat) : String :=
  String.join (List.replicate n s)

/-- Python `str.ljust`: pad with spaces on the right to the given width. -/
def ljust (s : String) (w : Nat) : String :=
  s ++ strRep " " (w - s.length)

/-- Single-quote character as a string (used in rendered report lines). -/
def squote : String := String.singleton (Char.ofNat 39)

/-- Python `'%s' % opt` where `opt` is a string or `None`. -/
def pyStrOpt (o : Option String) : String :=
  match o with
  | some s => s
  | none => "None"

/-- Python `str` of a list of strings (elements shown with quotes). -/
def pyStrList (l : List String) : String :=
  "[" ++ String.intercalate ", " (l.map (fun s => squote ++ s ++ squote)) ++ "]"

/-- One flat export record of `TestStats.json`, with every key of the Python
dict as a field; absent values are `none`. -/
structure Entry where
  testname : String
  description : String
  system : Option String
  environment : Option String
  tags : List String
  maintainers : List String
  scheduler : Option String
  jobid : Option String
  nodelist : List String
  job_stdout : Option String
  job_stderr : Option String
  build_stdout : Option String
  build_stderr : Option String
  failing_reason : Option String
  failing_phase : Option String
  outputdir : Option String
  stagedir : Option String
  result : String
  run_no : Nat
deriving DecidableEq, Repr

/-- The initial export dict built for a task's check in `TestStats.json`
(before the job, build and outcome branches run).  `result` and `run_no` are
assigned later by the source; they start at placeholder values here. -/
def entryBase (check : Check) : Entry :=
  { testname := check.name
    description := check.descr
    system := check.current_partition.map (fun p => p.fullname)
    environment := check.current_environ.map (fun e => e.name)
    tags := check.tags
    maintainers := check.maintainers
    scheduler := none
    jobid := none
    nodelist := []
    job_stdout := none
    job_stderr := none
    build_stdout := none
    build_stderr := none
    failing_reason := none
    failing_phase := none
    outputdir := none
    stagedir := none
    result := ""
    run_no := 0 }

/-- The `if check.job:` branch of `TestStats.json`.  Note the source reads
`partition.scheduler.registered_name` without a `None` check, so a task with
a job but no partition raises AttributeError. -/
def entryJob (check : Check) (e : Entry) : Except PyError Entry :=
  match check.job with
  | none => Except.ok e
  | some j =>
    match check.current_partition with
    | none => Except.error PyError.attributeError
    | some p =>
      Except.ok { e with
        scheduler := some p.scheduler_name
        jobid := some j.jobid
        nodelist := j.nodelist.getD []
        job_stdout := some check.stdout
        job_stderr := some check.stderr }

/-- The `if check._build_job:` branch of `TestStats.json`. -/
def entryBuild (check : Check) (e : Entry) : Entry :=
  if check.build_job then
    { e with build_stdout := some check.build_stdout, build_stderr := some check.build_stderr }
  else e

/-- The outcome branch of `TestStats.json`: on failure set `result` and, only
when `exc_info` is present, the formatted reason, failing phase and stage
directory; on success set `result` and the output directory. -/
def entryOutcome (fmt : Fmt) (t : TaskRecord) (e : Entry) : Except PyError Entry :=
  if t.failed then
    let e1 := { e with result := "fail" }
    match t.exc_info with
    | none => Except.ok e1
    | some xi =>
      match fmt xi with
      | Except.error er => Except.error er
      | Except.ok r =>
        Except.ok { e1 with
          failing_reason := some r
          failing_phase := some t.failed_stage
          stagedir := some t.check.stagedir }
  else
    Except.ok { e with result := "success", outputdir := some t.check.outputdir }

/-- Projection of one task record to an export dict, before `run_no` is set. -/
def entryCore (fmt : Fmt) (t : TaskRecord) : Except PyError Entry :=
  match entryJob t.check (entryBase t.check) with
  | Except.error er => Except.error er
  | Except.ok e1 => entryOutcome fmt t (entryBuild t.check e1)

/-- Projection of one task record at run index `run_no` (the source sets
`entry['run_no'] = run_no` last). -/
def entryOf (fmt : Fmt) (run_no : Nat) (t : TaskRecord) : Except PyError Entry :=
  match entryCore fmt t with
  | Except.error er => Except.error er
  | Except.ok e => Except.ok { e with run_no := run_no }

/-- The records contributed by one run (the inner `for t in run:` loop of
`TestStats.json`), failing at the first task whose projection raises. -/
def entriesOfRun (fmt : Fmt) (i : Nat) : List TaskRecord → Except PyError (List Entry)
  | [] => Except.ok []
  | t :: ts =>
    match entryOf fmt i t with
    | Except.error er => Except.error er
    | Except.ok e =>
      match entriesOfRun fmt i ts with
      | Except.error er => Except.error er
      | Except.ok es => Except.ok (e :: es)

/-- The outer `for run_no, run in enumerate(self._alltasks):` loop of
`TestStats.json`, starting at run index `i`. -/
def jsonAux (fmt : Fmt) : Nat → List (List TaskRecord) → Except PyError (List Entry)
  | _, [] => Except.ok []
  | i, run :: rest =>
    match entriesOfRun fmt i run with
    | Except.error er => Except.error er
    | Except.ok es =>
      match jsonAux fmt (i + 1) rest with
      | Except.error er => Except.error er
      | Except.ok es2 => Except.ok (es ++ es2)

/-- TestStats.json: one flat record per task of every run, in arrival order. -/
def json (fmt : Fmt) (rs : List (List TaskRecord)) : Except PyError (List Entry) :=
  jsonAux fmt 0 rs

/-- Composite retry key of a task: the colon-joined string
`name:partition_fullname:environ_name` with empty strings for absent
partition/environment, exactly as `'%s:%s:%s' % (...)` builds it. -/
def retryKey (t : TaskRecord) : String :=
  let partition_name := match t.check.current_partition with
    | some p => p.fullname
    | none => ""
  let environ_name := match t.check.current_environ with
    | some e => e.name
    | none => ""
  t.check.name ++ ":" ++ partition_name ++ ":" ++ environ_name

/-- The retry summary message recorded for a task seen in run `run`. -/
def retryMsg (run : Nat) (t : TaskRecord) : String :=
  "  * Test " ++ t.check.info ++ " was retried " ++ toString run ++ " time(s) and "
    ++ (if t.failed then "failed" else "passed") ++ "."

/-- Insert-or-overwrite on an association list, the embedding of
`messages[key] = msg` on a Python dict. -/
def upsert (m : List (String × String)) (k v : String) : List (String × String) :=
  match m with
  | [] => [(k, v)]
  | p :: rest => if p.1 = k then (k, v) :: rest else p :: upsert rest k v

/-- Lookup on an association list (Python `messages[key]`). -/
def alookup (m : List (String × String)) (key : String) : Option String :=
  match m with
  | [] => none
  | p :: rest => if p.1 = key then some p.2 else alookup rest key

/-- The `messages` dict after processing the runs in `runs`, whose first run
has index `i`, starting from dict `m`. -/
def retryMsgsAux : Nat → List (List TaskRecord) → List (String × String) → List (String × String)
  | _, [], m => m
  | i, run :: rest, m =>
    retryMsgsAux (i + 1) rest (run.foldl (fun m2 t => upsert m2 (retryKey t) (retryMsg i t)) m)

/-- The `messages` dict of `TestStats.retry_report`: runs 1 .. last, in order,
later entries overwriting earlier ones at the same key. -/
def retryMessages (rs : List (List TaskRecord)) : List (String × String) :=
  retryMsgsAux 1 (rs.drop 1) []

/-- The retry keys in Python `sorted` order. -/
def sortedRetryKeys (rs : List (List TaskRecord)) : List String :=
  List.insertionSort (fun a b => a ≤ b) ((retryMessages rs).map Prod.fst)

/-- The message lines of the retry report, one per key, sorted by key. -/
def retryLines (rs : List (List TaskRecord)) : List String :=
  (sortedRetryKeys rs).map (fun k => (alookup (retryMessages rs) k).getD "")

/-- TestStats.retry_report: empty when the current run index is 0, otherwise
a banner followed by the per-key messages sorted by key. -/
def retry_report (cr : Nat) (rs : List (List TaskRecord)) : String :=
  if cr = 0 then ""
  else
    String.intercalate "\n"
      ([strRep "=" 78, "SUMMARY OF RETRIES", strRep "-" 78] ++ retryLines rs)

/-- The lines appended to the failure report for one failing record `r`
(the body of the `for r in self.json():` loop of `TestStats.failure_report`,
after the skip test). -/
def failureLines (last_run : Nat) (r : Entry) : List String :=
  let retry_info :=
    if 0 < last_run then "(for the last of " ++ toString last_run ++ " retries)" else ""
  [strRep "-" 78,
   "FAILURE INFO for " ++ r.testname ++ " " ++ retry_info,
   "  * Test Description: " ++ r.description,
   "  * System partition: " ++ pyStrOpt r.system,
   "  * Environment: " ++ pyStrOpt r.environment,
   "  * Stage directory: " ++ pyStrOpt r.stagedir,
   "  * Node list: " ++
     (if r.nodelist = [] then "None" else String.intercalate "," r.nodelist),
   "  * Job type: " ++ (if r.scheduler = some "local" then "local" else "batch job")
     ++ " (id=" ++ pyStrOpt r.jobid ++ ")",
   "  * Maintainers: " ++ pyStrList r.maintainers,
   "  * Failing phase: " ++ pyStrOpt r.failing_phase,
   "  * Rerun with " ++ squote ++ "-n " ++ r.testname ++ " -p " ++ pyStrOpt r.environment
     ++ " --system " ++ pyStrOpt r.system ++ squote,
   "  * Reason: " ++ pyStrOpt r.failing_reason] ++
  (if r.failing_phase = some "sanity" then ["Sanity check failure"]
   else if r.failing_phase = some "performance" then ["Performance check failure"]
   else ["Unknown error."])

/-- TestStats.failure_report: a dossier over the projected records of the
run whose index equals the current run, skipping successes; any error from
the projector propagates. -/
def failure_report (fmt : Fmt) (cr : Nat) (rs : List (List TaskRecord)) :
    Except PyError String :=
  match json fmt rs with
  | Except.error e => Except.error e
  | Except.ok recs =>
    let body := recs.foldl
      (fun acc r =>
        if r.result = "success" ∨ r.run_no ≠ cr then acc else acc ++ failureLines cr r)
      [strRep "=" 78, "SUMMARY OF FAILURES"]
    Except.ok (String.intercalate "\n" (body ++ [strRep "-" 78]))

/-- The bracketed failing-case label of `TestStats.failure_stats`
(`f'[{check.name}, {environ_name}, {partfullname}]'`, with the literal
string `None` for an absent environment or partition). -/
def failLabel (check : Check) : String :=
  let partfullname := match check.current_partition with
    | some p => p.fullname
    | none => "None"
  let environ_name := match check.current_environ with
    | some e => e.name
    | none => "None"
  "[" ++ check.name ++ ", " ++ environ_name ++ ", " ++ partfullname ++ "]"

/-- Append a failing-case label under its stage, creating the stage entry at
the end on first sight (Python dict insertion order). -/
def addFailure (m : List (String × List String)) (stage lbl : String) :
    List (String × List String) :=
  match m with
  | [] => [(stage, [lbl])]
  | p :: rest =>
    if p.1 = stage then (p.1, p.2 ++ [lbl]) :: rest else p :: addFailure rest stage lbl

/-- The `failures` mapping of `TestStats.failure_stats`: failed tasks of the
given run grouped by failing stage, in encounter order. -/
def failuresByStage (ts : List TaskRecord) : List (String × List String) :=
  ts.foldl (fun m t => if t.failed then addFailure m t.failed_stage (failLabel t.check) else m) []

/-- The fixed-width row `"{:<13} {:<5} {}"` of the failure statistics table. -/
def rowFormat (a b c : String) : String :=
  ljust a 13 ++ " " ++ ljust b 5 ++ " " ++ c

/-- The table rows of the failure statistics: per stage one row with the
count and first label, then one continuation row per remaining label. -/
def statsRows (m : List (String × List String)) : List String :=
  (m.map (fun p =>
    match p.2 with
    | [] => []
    | x :: xs => rowFormat p.1 (toString (x :: xs).length) x ::
        xs.map (fun f => rowFormat "" "" f))).flatten

/-- The `stats_body` list of `TestStats.failure_stats` for the given tasks. -/
def statsBody (ts : List TaskRecord) : List String :=
  let m := failuresByStage ts
  let num_failures := (m.map (fun p => p.2.length)).sum
  ["",
   "Total number of test cases: " ++ toString ts.length,
   "Total number of failures: " ++ toString num_failures,
   "",
   rowFormat "Phase" "#" "Failing test cases",
   rowFormat (strRep "-" 13) (strRep "-" 5) (strRep "-" 60)] ++ statsRows m

/-- The string built by `TestStats.failure_stats` from the current run's
tasks (including the dead `return ''` branch for an empty body). -/
def failure_stats_str (ts : List TaskRecord) : String :=
  let body := statsBody ts
  if body = [] then ""
  else String.intercalate "\n"
    ([strRep "=" 78, "FAILURE STATISTICS"] ++ body ++ [strRep "-" 78])

/-- TestStats.failure_stats: statistics over the tasks of the run at the
current run index. -/
def failure_stats (cr : Nat) (rs : List (List TaskRecord)) : Except PyError String :=
  match tasks rs (cr : Int) with
  | Except.error e => Except.error e
  | Except.ok ts => Except.ok (failure_stats_str ts)

/-- Python `'%s' % env` for an optional environment object (its `str` shows
the environment name; `None` prints as `None`). -/
def perfEnvStr (o : Option Environ) : String :=
  match o with
  | some e => e.name
  | none => "None"

/-- The per-value lines of the performance report: for each `(key, ref)` the
line `* <var>: <val> <unit>` where `var` is the last colon-separated
component of the key, `val` is `ref[0]` (IndexError if the tuple is empty)
and `unit` is `ref[4]` with an IndexError fallback. -/
def perfValueLines : List (String × List String) → Except PyError (List String)
  | [] => Except.ok []
  | (key, ref) :: rest =>
    match ref.head? with
    | none => Except.error PyError.indexError
    | some val =>
      let var := ((key.splitOn ":").getLast?).getD ""
      let unit := ref.getD 4 "(no unit specified)"
      match perfValueLines rest with
      | Except.error e => Except.error e
      | Except.ok ls => Except.ok (("      * " ++ var ++ ": " ++ val ++ " " ++ unit) :: ls)

/-- One iteration of the `for t in self.tasks():` loop of
`TestStats.performance_report`.  The state is
(previous_name, previous_part, report_body).  For a task with performance
values the source reads `t.check.current_partition.fullname` with no `None`
check, raising AttributeError when the partition is absent. -/
def perfStep (t : TaskRecord) (st : String × String × List String) :
    Except PyError (String × String × List String) :=
  let prevName := st.1
  let prevPart := st.2.1
  let body := st.2.2
  if t.check.perfvalues = [] then Except.ok (prevName, prevPart, body)
  else
    let body1 := if t.check.name ≠ prevName then body ++ [strRep "-" 78, t.check.name] else body
    let prevName1 := if t.check.name ≠ prevName then t.check.name else prevName
    match t.check.current_partition with
    | none => Except.error PyError.attributeError
    | some p =>
      let body2 := if p.fullname ≠ prevPart then body1 ++ ["- " ++ p.fullname] else body1
      let prevPart2 := if p.fullname ≠ prevPart then p.fullname else prevPart
      let body3 := body2 ++
        ["   - " ++ perfEnvStr t.check.current_environ,
         "      * num_tasks: " ++ toString t.check.num_tasks]
      match perfValueLines t.check.perfvalues with
      | Except.error e => Except.error e
      | Except.ok vls => Except.ok (prevName1, prevPart2, body3 ++ vls)

/-- The full loop of `TestStats.performance_report`. -/
def perfLoop : List TaskRecord → String × String × List String →
    Except PyError (List String)
  | [], st => Except.ok st.2.2
  | t :: ts, st =>
    match perfStep t st with
    | Except.error e => Except.error e
    | Except.ok st1 => perfLoop ts st1

/-- TestStats.performance_report: iterates `self.tasks()` (the run at index
-1, i.e. only the most recent run) and renders the recorded performance
values; an empty body yields the empty string. -/
def performance_report (rs : List (List TaskRecord)) : Except PyError String :=
  match tasks rs (-1) with
  | Except.error e => Except.error e
  | Except.ok ts =>
    match perfLoop ts ("", "", []) with
    | Except.error e => Except.error e
    | Except.ok body =>
      if body = [] then Except.ok ""
      else Except.ok (String.intercalate "\n"
        ([strRep "=" 78, "PERFORMANCE REPORT"] ++ body ++ [strRep "-" 78]))

/-- Total number of task records in the store. -/
def numTasks (rs : List (List TaskRecord)) : Nat :=
  (rs.map List.length).sum

/-- The run indices that the projector assigns, flattened in arrival order,
with the first run numbered `i`. -/
def runNoSeq : Nat → List (List TaskRecord) → List Nat
  | _, [] => []
  | i, run :: rest => List.replicate run.length i ++ runNoSeq (i + 1) rest

/-- The (run index, task) pairs visited by the retry report, in visit order,
with the first listed run numbered `i`. -/
def retryPairsAux : Nat → List (List TaskRecord) → List (Nat × TaskRecord)
  | _, [] => []
  | i, run :: rest => run.map (fun t => (i, t)) ++ retryPairsAux (i + 1) rest

/-- The (run index, task) pairs visited by the retry report: runs 1 .. last. -/
def retryPairs (rs : List (List TaskRecord)) : List (Nat × TaskRecord) :=
  retryPairsAux 1 (rs.drop 1)

/-- First-of-two choice on optional values (`o` if present, else `d`). -/
def orElseOpt (o : Option String) (d : Option String) : Option String :=
  match o with
  | some v => some v
  | none => d

/-- The message of the last visited task whose retry key is `key`. -/
def lastMsgAux (key : String) : List (Nat × TaskRecord) → Option String
  | [] => none
  | p :: rest =>
    orElseOpt (lastMsgAux key rest)
      (if retryKey p.2 = key then some (retryMsg p.1 p.2) else none)

/-- The message of the last (highest run, then latest within the run) task
with retry key `key`, or `none` when no retried run contains the key. -/
def lastMsgFor (rs : List (List TaskRecord)) (key : String) : Option String :=
  lastMsgAux key (retryPairs rs)

/-- Modelled from the spec: the composite key of section 4.3 as worded there,
the tuple (test name, partition full name or empty string, environment name
or empty string).  The source instead joins the three components with `:`
into a single string (`retryKey`); the two disagree whenever components
themselves contain colons. -/
def specRetryKey (t : TaskRecord) : String × String × String :=
  (t.check.name,
   (match t.check.current_partition with
    | some p => p.fullname
    | none => ""),
   (match t.check.current_environ with
    | some e => e.name
    | none => ""))

/-- Formatter that renders the exception payload unchanged and never fails. -/
def idFmt : Fmt := fun s => Except.ok s

/-- Formatter that fails on the payload `boom` and succeeds elsewhere,
standing for a diagnostic whose rendering raises. -/
def badFmt : Fmt := fun s =>
  if s = "boom" then Except.error PyError.formatError else Except.ok s

/-- Baseline check fixture: no partition, no environment, no job, no build. -/
def check0 : Check :=
  { name := "t", descr := "d", tags := [], maintainers := [],
    current_partition := none, current_environ := none, job := none,
    build_job := false, stdout := "", stderr := "", build_stdout := "",
    build_stderr := "", stagedir := "stage", outputdir := "out", info := "t",
    num_tasks := 4, perfvalues := [] }

/-- A passed task with no job and no partition. -/
def passTask : TaskRecord := ⟨check0, false, none, ""⟩

/-- A passed task with one performance value, on partition p1/environment e1. -/
def perfTaskA : TaskRecord :=
  ⟨{ check0 with
     name := "A"
     info := "A"
     current_partition := some ⟨"p1", "slurm"⟩
     current_environ := some ⟨"e1"⟩
     perfvalues := [("x:speed", ["10", "1", "2", "0", "GB/s"])] }, false, none, ""⟩

/-- Store whose run 0 holds a task with performance values and whose last
run is empty. -/
def c1Store : List (List TaskRecord) := [[perfTaskA], []]

/-- A failed task whose exception payload makes `badFmt` raise. -/
def c2TaskBad : TaskRecord := ⟨check0, true, some "boom", "sanity"⟩

/-- A second failed task, whose payload formats fine. -/
def c2TaskOther : TaskRecord :=
  ⟨{ check0 with name := "other", info := "other" }, true, some "fine", "sanity"⟩

/-- Store with one run holding a record with unrenderable failure metadata
followed by a perfectly renderable failed record. -/
def c2Store : List (List TaskRecord) := [[c2TaskBad, c2TaskOther]]

/-- A failed task carrying no exception info. -/
def c3Task : TaskRecord := ⟨check0, true, none, "sanity"⟩

/-- The record the projector produces for `c3Task` at run 0. -/
def c3Entry : Entry :=
  { testname := "t", description := "d", system := none, environment := none,
    tags := [], maintainers := [], scheduler := none, jobid := none,
    nodelist := [], job_stdout := none, job_stderr := none,
    build_stdout := none, build_stderr := none, failing_reason := none,
    failing_phase := none, outputdir := none, stagedir := none,
    result := "fail", run_no := 0 }

/-- A passed task that has a performance value but no partition. -/
def c4Task : TaskRecord :=
  ⟨{ check0 with
     perfvalues := [("s", ["10"])]
     current_partition := none }, false, none, ""⟩

/-- The check of the retried test `a` on partition `b:c`. -/
def c6Check1 : Check :=
  { check0 with
    name := "a"
    info := "a"
    current_partition := some ⟨"b:c", "slurm"⟩ }

/-- Run-1 occurrence of test `a` on partition `b:c`: failed. -/
def c6T1 : TaskRecord := ⟨c6Check1, true, none, "sanity"⟩

/-- Run-2 occurrence of test `a` on partition `b:c`: passed. -/
def c6T2 : TaskRecord := ⟨c6Check1, false, none, ""⟩

/-- A different test `a:b` on partition `c`, whose colon-joined key collides
with that of test `a` on partition `b:c`. -/
def c6T3 : TaskRecord :=
  ⟨{ check0 with
     name := "a:b"
     info := "a:b"
     current_partition := some ⟨"c", "slurm"⟩ }, true, none, "sanity"⟩

/-- Store with the key of `c6T1`/`c6T2` retried in runs 1 and 2, and the
colliding task `c6T3` processed after `c6T2` in run 2. -/
def c6Store : List (List TaskRecord) := [[], [c6T1], [c6T2, c6T3]]

/-- The record the projector produces for `passTask` at run 0. -/
def c7Rec : Entry :=
  { testname := "t", description := "d", system := none, environment := none,
    tags := [], maintainers := [], scheduler := none, jobid := none,
    nodelist := [], job_stdout := none, job_stderr := none,
    build_stdout := none, build_stderr := none, failing_reason := none,
    failing_phase := none, outputdir := some "out", stagedir := none,
    result := "success", run_no := 0 }

/-- The record the projector produces for `passTask` at run 1. -/
def c7Rec1 : Entry := { c7Rec with run_no := 1 }

theorem tasks_neg_one (rs : List (List TaskRecord)) (h : rs ≠ []) :
    tasks rs (-1) = Except.ok (rs.getD (rs.length - 1) []) := by
  have hlen : 0 < rs.length := List.length_pos.mpr h
  unfold tasks pyGet
  have h0 : ¬ ((0:Int) ≤ -1) := by decide
  rw [if_neg h0]
  have h1 : (0:Int) ≤ -1 + (rs.length : Int) := by omega
  rw [if_pos h1]
  have h2 : ((-1) + (rs.length : Int)).toNat = rs.length - 1 := by omega
  rw [h2]

/-- C8: whenever the current run index is 0, the retry report is the empty
string, for every possible store contents. -/
theorem C8_retry_report_empty (rs : List (List TaskRecord)) :
    retry_report 0 rs = "" := rfl

/-- C1 counterexample: run 0 of `c1Store` holds a task with a performance
value, yet the performance report of the store is empty, because the source
iterates `self.tasks()` — the last run only — and the last run is empty.
This falsifies the claim that every task of any run with at least one
performance value contributes its lines to the report. -/
theorem C1_counterexample :
    perfTaskA ∈ List.getD c1Store 0 [] ∧ perfTaskA.check.perfvalues ≠ [] ∧
    performance_report c1Store = Except.ok "" := by
  decide

/-- C1 amended: the performance report is computed from the task records of
only the current (last) run; the contents of every earlier run are
irrelevant to it. -/
theorem C1_last_run_only (rs : List (List TaskRecord)) (h : rs ≠ []) :
    performance_report rs = performance_report [rs.getD (rs.length - 1) []] := by
  unfold performance_report
  rw [tasks_neg_one rs h, tasks_neg_one [rs.getD (rs.length - 1) []] (List.cons_ne_nil _ _)]
  rfl

/-- Witness for C1: the amended statement applied to a concrete two-run store. -/
theorem C1_witness : performance_report [[], []] = performance_report [[]] :=
  C1_last_run_only [[], []] (by decide)

/-- C5: for a non-empty store, the run lookup returns the run's task list for
any index in [-lastIndex-1 .. lastIndex] (negative indices counting from the
end) and raises StatisticsError (the spec's NoSuchRunError) for every index
outside that interval, in either direction. -/
theorem C5_run_lookup (rs : List (List TaskRecord)) (run : Int) (h : rs ≠ []) :
    ((-(rs.length : Int) ≤ run ∧ run ≤ (rs.length : Int) - 1) →
      tasks rs run = Except.ok (rs.getD (pyIdx rs.length run) [])) ∧
    (¬(-(rs.length : Int) ≤ run ∧ run ≤ (rs.length : Int) - 1) →
      tasks rs run = Except.error PyError.statisticsError) := by
  have hlen : 0 < rs.length := List.length_pos.mpr h
  by_cases h0 : (0:Int) ≤ run
  · constructor
    · rintro ⟨h1, h2⟩
      have hlt : run < (rs.length : Int) := by omega
      simp [tasks, pyGet, pyIdx, h0, hlt]
    · intro hn
      push_neg at hn
      have h2 := hn (by omega)
      have hge : ¬ run < (rs.length : Int) := by omega
      simp [tasks, pyGet, h0, hge]
  · constructor
    · rintro ⟨h1, h2⟩
      have hpos : (0:Int) ≤ run + rs.length := by omega
      simp [tasks, pyGet, pyIdx, h0, hpos]
    · intro hn
      push_neg at hn
      have hA : ¬ (-(rs.length:Int) ≤ run) := by
        intro hA
        exact absurd (hn hA) (by omega)
      have hneg : ¬ ((0:Int) ≤ run + rs.length) := by omega
      simp [tasks, pyGet, h0, hneg]

/-- Witness for C5: in-range negative index and out-of-range positive index
on a concrete two-run store. -/
theorem C5_witness :
    tasks [[], [passTask]] (-2) = Except.ok [] ∧
    tasks [[], [passTask]] 2 = Except.error PyError.statisticsError :=
  ⟨(C5_run_lookup [[], [passTask]] (-2) (by decide)).1 (by decide),
   (C5_run_lookup [[], [passTask]] 2 (by decide)).2 (by decide)⟩

set_option maxRecDepth 100000 in
/-- C9: when the current run exists and contains zero tasks, the failure
statistics generator returns the (non-empty) banner report with the zero
totals `Total number of test cases: 0` and `Total number of failures: 0`. -/
theorem C9_empty_run_stats (cr : Nat) (rs : List (List TaskRecord))
    (h : tasks rs (cr : Int) = Except.ok []) :
    failure_stats cr rs = Except.ok (failure_stats_str []) ∧
    failure_stats_str [] ≠ "" ∧
    failure_stats_str [] = String.intercalate "\n"
      ([strRep "=" 78, "FAILURE STATISTICS"] ++ statsBody [] ++ [strRep "-" 78]) ∧
    "Total number of test cases: 0" ∈ statsBody [] ∧
    "Total number of failures: 0" ∈ statsBody [] := by
  refine ⟨?_, by decide, by decide, by decide, by decide⟩
  unfold failure_stats
  rw [h]

/-- Witness for C9: an empty current run 0. -/
theorem C9_witness : failure_stats 0 [[]] = Except.ok (failure_stats_str []) :=
  (C9_empty_run_stats 0 [[]] (by decide)).1

theorem getD_set_self (l : List (List TaskRecord)) (n : Nat) (v : List TaskRecord)
    (h : n < l.length) : (l.set n v).getD n [] = v := by
  simp [List.getD_eq_getElem?_getD, List.getElem?_set_self, h]

theorem getD_set_ne (l : List (List TaskRecord)) (n j : Nat) (v : List TaskRecord)
    (h : j ≠ n) : (l.set n v).getD j [] = l.getD j [] := by
  simp [List.getD_eq_getElem?_getD, List.getElem?_set_ne (Ne.symm h)]

theorem getD_append_len (l : List (List TaskRecord)) (x : List TaskRecord) :
    (l ++ [x]).getD l.length [] = x := by
  simp [List.getD_eq_getElem?_getD, List.getElem?_append_right (Nat.le_refl l.length)]

theorem set_append_len (l : List (List TaskRecord)) (x y : List TaskRecord) :
    (l ++ [x]).set l.length y = l ++ [y] := by
  induction l with
  | nil => rfl
  | cons a as ih => simp [List.set, ih]

/-- C10: when the current run index is at most the number of stored runs,
`add_task` succeeds; it creates exactly one new run exactly when the index
equals the number of runs, appends the record to the run at the index, and
leaves every other run unchanged. -/
theorem C10_add_task (cr : Nat) (t : TaskRecord) (rs : List (List TaskRecord))
    (h : cr ≤ rs.length) :
    ∃ rs2, add_task cr t rs = Except.ok rs2 ∧
      rs2.length = rs.length + (if cr = rs.length then 1 else 0) ∧
      rs2.getD cr [] = rs.getD cr [] ++ [t] ∧
      ∀ j, j ≠ cr → rs2.getD j [] = rs.getD j [] := by
  by_cases hc : cr = rs.length
  · subst hc
    refine ⟨rs ++ [[t]], ?_, ?_, ?_, ?_⟩
    · simp [add_task, getD_append_len, set_append_len]
    · simp
    · rw [getD_append_len, List.getD_eq_default _ _ (Nat.le_refl _)]
      rfl
    · intro j hj
      rcases Nat.lt_or_ge j rs.length with hlt | hge
      · exact List.getD_append rs [[t]] [] j hlt
      · have hgt : rs.length < j := by omega
        rw [List.getD_eq_default _ _ (by simp; omega), List.getD_eq_default _ _ (by omega)]
  · have hlt : cr < rs.length := by omega
    refine ⟨rs.set cr (rs.getD cr [] ++ [t]), ?_, ?_, ?_, ?_⟩
    · simp [add_task, hc, hlt]
    · simp [hc]
    · exact getD_set_self _ _ _ hlt
    · intro j hj
      exact getD_set_ne _ _ _ _ hj

/-- Witness for C10: appending a task at current run 1 to a one-run store. -/
theorem C10_witness :
    ∃ rs2, add_task 1 passTask [[passTask]] = Except.ok rs2 ∧
      rs2.length = 2 ∧
      rs2.getD 1 [] = [passTask] ∧
      ∀ j, j ≠ 1 → rs2.getD j [] = List.getD [[passTask]] j [] :=
  C10_add_task 1 passTask [[passTask]] (by decide)

theorem entryOf_isOk (fmt : Fmt) (i : Nat) (t : TaskRecord) :
    (entryOf fmt i t).isOk = (entryCore fmt t).isOk := by
  unfold entryOf
  cases entryCore fmt t <;> rfl

theorem entriesOfRun_error_of_mem (fmt : Fmt) (t : TaskRecord)
    (h2 : (entryCore fmt t).isOk = false) :
    ∀ (i : Nat) (ts : List TaskRecord), t ∈ ts → (entriesOfRun fmt i ts).isOk = false := by
  intro i ts
  induction ts with
  | nil => intro h1; cases h1
  | cons a as ih =>
    intro h1
    unfold entriesOfRun
    cases he : entryOf fmt i a with
    | error er => rfl
    | ok e =>
      rcases List.mem_cons.mp h1 with rfl | hmem
      · have hx := entryOf_isOk fmt i t
        rw [he, h2] at hx
        exact Bool.noConfusion hx
      · cases hr : entriesOfRun fmt i as with
        | error er => rfl
        | ok es =>
          have hx := ih hmem
          rw [hr] at hx
          exact Bool.noConfusion hx

theorem jsonAux_error_of_mem (fmt : Fmt) (run : List TaskRecord) (t : TaskRecord)
    (h2 : t ∈ run) (h3 : (entryCore fmt t).isOk = false) :
    ∀ (i : Nat) (rs : List (List TaskRecord)), run ∈ rs → (jsonAux fmt i rs).isOk = false := by
  intro i rs
  induction rs generalizing i with
  | nil => intro h1; cases h1
  | cons r rest ih =>
    intro h1
    unfold jsonAux
    cases he : entriesOfRun fmt i r with
    | error er => rfl
    | ok es =>
      rcases List.mem_cons.mp h1 with rfl | hmem
      · have hx := entriesOfRun_error_of_mem fmt t h3 i run h2
        rw [he] at hx
        exact Bool.noConfusion hx
      · cases hr : jsonAux fmt (i + 1) rest with
        | error er => rfl
        | ok es2 =>
          have hx := ih (i + 1) hmem
          rw [hr] at hx
          exact Bool.noConfusion hx

/-- C2 amended: when rendering the failure metadata of a task record raises,
the error propagates: the projector and with it the failure report abort as a
whole, instead of degrading that record's failing_reason to a placeholder. -/
theorem C2_format_error_aborts (fmt : Fmt) (cr : Nat) (rs : List (List TaskRecord))
    (run : List TaskRecord) (t : TaskRecord) (h1 : run ∈ rs) (h2 : t ∈ run)
    (h3 : (entryCore fmt t).isOk = false) :
    (json fmt rs).isOk = false ∧ (failure_report fmt cr rs).isOk = false := by
  have hj := jsonAux_error_of_mem fmt run t h2 h3 0 rs h1
  have hj2 : (json fmt rs).isOk = false := hj
  refine ⟨hj2, ?_⟩
  unfold failure_report
  cases he : json fmt rs with
  | error er => rfl
  | ok recs =>
    rw [he] at hj2
    exact Bool.noConfusion hj2

/-- C2 counterexample: in `c2Store` the first record's failure metadata makes
the formatter raise; the projector and the failure report then abort with
that error, covering no record at all — in particular not the second,
renderable, failed record `c2TaskOther`.  This falsifies the claim that a
formatting error degrades one record and the report still covers the rest. -/
theorem C2_counterexample :
    c2TaskOther.failed = true ∧
    json badFmt c2Store = Except.error PyError.formatError ∧
    failure_report badFmt 0 c2Store = Except.error PyError.formatError := by
  refine ⟨rfl, by decide, by decide⟩

/-- Witness for C2: the amended statement applied to the concrete store. -/
theorem C2_witness :
    (json badFmt c2Store).isOk = false ∧ (failure_report badFmt 0 c2Store).isOk = false :=
  C2_format_error_aborts badFmt 0 c2Store [c2TaskBad, c2TaskOther] c2TaskBad
    (by decide) (by decide) (by decide)

theorem tasks_nat_ok (cr : Nat) (rs : List (List TaskRecord)) (h : cr < rs.length) :
    tasks rs (cr : Int) = Except.ok (rs.getD cr []) := by
  have h0 : (0:Int) ≤ (cr : Int) := by omega
  have h1 : (cr : Int) < (rs.length : Int) := by omega
  simp [tasks, pyGet, h0, h1, h]

theorem failure_stats_isOk (cr : Nat) (rs : List (List TaskRecord)) (h : cr < rs.length) :
    (failure_stats cr rs).isOk = true := by
  unfold failure_stats
  rw [tasks_nat_ok cr rs h]
  rfl

theorem perfStep_none_partition (t : TaskRecord) (st : String × String × List String)
    (h1 : t.check.perfvalues ≠ []) (h2 : t.check.current_partition = none) :
    perfStep t st = Except.error PyError.attributeError := by
  unfold perfStep
  rw [if_neg h1, h2]

theorem perfLoop_error_of_mem (t : TaskRecord)
    (h2 : t.check.perfvalues ≠ []) (h3 : t.check.current_partition = none) :
    ∀ (ts : List TaskRecord), t ∈ ts → ∀ st, (perfLoop ts st).isOk = false := by
  intro ts
  induction ts with
  | nil => intro h1; cases h1
  | cons a as ih =>
    intro h1 st
    unfold perfLoop
    rcases List.mem_cons.mp h1 with rfl | hmem
    · rw [perfStep_none_partition t st h2 h3]
      rfl
    · cases hs : perfStep a st with
      | error e => rfl
      | ok st1 => exact ih hmem st1

theorem performance_report_error (rs : List (List TaskRecord)) (ts : List TaskRecord)
    (t : TaskRecord) (h0 : tasks rs (-1) = Except.ok ts) (h1 : t ∈ ts)
    (h2 : t.check.perfvalues ≠ []) (h3 : t.check.current_partition = none) :
    (performance_report rs).isOk = false := by
  have hx := perfLoop_error_of_mem t h2 h3 ts h1 ("", "", [])
  cases hp : perfLoop ts ("", "", []) with
  | error e => simp [performance_report, h0, hp, Except.isOk, Except.toBool]
  | ok body =>
    rw [hp] at hx
    exact Bool.noConfusion hx

/-- C4 amended: absent partition or environment is a normal state for the
failure statistics generator (it succeeds on every store whose current run
exists, whatever is missing on the tasks), but the performance report is an
exception: it raises AttributeError on any current-run task that has
performance values and no partition. -/
theorem C4_missing_context :
    (∀ (cr : Nat) (rs : List (List TaskRecord)), cr < rs.length →
      (failure_stats cr rs).isOk = true) ∧
    (∀ (rs : List (List TaskRecord)) (ts : List TaskRecord) (t : TaskRecord),
      tasks rs (-1) = Except.ok ts → t ∈ ts → t.check.perfvalues ≠ [] →
      t.check.current_partition = none → (performance_report rs).isOk = false) :=
  ⟨fun cr rs h => failure_stats_isOk cr rs h,
   fun rs ts t h0 h1 h2 h3 => performance_report_error rs ts t h0 h1 h2 h3⟩

/-- C4 counterexample: a task with a performance value but no partition makes
the performance report raise AttributeError, falsifying the claim that no
generator faults on a missing partition. -/
theorem C4_counterexample :
    c4Task.check.perfvalues ≠ [] ∧ c4Task.check.current_partition = none ∧
    performance_report [[c4Task]] = Except.error PyError.attributeError := by
  decide

/-- Witness for C4: both halves of the amended statement on concrete stores. -/
theorem C4_witness :
    (failure_stats 0 [[]]).isOk = true ∧ (performance_report [[c4Task]]).isOk = false := by
  have hx := C4_missing_context
  exact ⟨hx.1 0 [[]] (by decide),
         hx.2 [[c4Task]] [c4Task] c4Task (by decide) (by decide) (by decide) (by decide)⟩

theorem entryJob_base_fields (check : Check) (e1 : Entry)
    (h : entryJob check (entryBase check) = Except.ok e1) :
    e1.failing_reason = none ∧ e1.failing_phase = none ∧
    e1.outputdir = none ∧ e1.stagedir = none := by
  unfold entryJob at h
  cases hj : check.job with
  | none =>
    rw [hj] at h
    obtain rfl := Except.ok.inj h
    exact ⟨rfl, rfl, rfl, rfl⟩
  | some j =>
    rw [hj] at h
    cases hp : check.current_partition with
    | none =>
      rw [hp] at h
      cases h
    | some p =>
      rw [hp] at h
      obtain rfl := Except.ok.inj h
      exact ⟨rfl, rfl, rfl, rfl⟩

theorem entryBuild_fields (check : Check) (e : Entry) :
    (entryBuild check e).failing_reason = e.failing_reason ∧
    (entryBuild check e).failing_phase = e.failing_phase ∧
    (entryBuild check e).outputdir = e.outputdir ∧
    (entryBuild check e).stagedir = e.stagedir := by
  unfold entryBuild
  split
  · exact ⟨rfl, rfl, rfl, rfl⟩
  · exact ⟨rfl, rfl, rfl, rfl⟩

theorem entryOutcome_cases (fmt : Fmt) (t : TaskRecord) (e e0 : Entry)
    (h : entryOutcome fmt t e = Except.ok e0) :
    (t.failed = true → t.exc_info = none → e0 = { e with result := "fail" }) ∧
    (∀ xi, t.failed = true → t.exc_info = some xi →
      ∃ r, fmt xi = Except.ok r ∧
        e0 = { e with
               result := "fail"
               failing_reason := some r
               failing_phase := some t.failed_stage
               stagedir := some t.check.stagedir }) ∧
    (t.failed = false →
      e0 = { e with
             result := "success"
             outputdir := some t.check.outputdir }) := by
  unfold entryOutcome at h
  by_cases hf : t.failed = true
  · rw [if_pos hf] at h
    cases hx : t.exc_info with
    | none =>
      rw [hx] at h
      obtain rfl := Except.ok.inj h
      refine ⟨fun _ _ => rfl, ?_, ?_⟩
      · intro xi _ hxi
        exact Option.noConfusion hxi
      · intro hf0
        rw [hf0] at hf
        exact Bool.noConfusion hf
    | some xi0 =>
      rw [hx] at h
      cases hr : fmt xi0 with
      | error er =>
        simp [hr] at h
      | ok r =>
        simp [hr] at h
        subst h
        refine ⟨?_, ?_, ?_⟩
        · intro _ hnone
          exact Option.noConfusion hnone
        · intro xi _ hxi
          obtain rfl := Option.some.inj hxi
          exact ⟨r, hr, rfl⟩
        · intro hf0
          rw [hf0] at hf
          exact Bool.noConfusion hf
  · rw [if_neg hf] at h
    obtain rfl := Except.ok.inj h
    have hf2 : t.failed = false := by
      cases hb : t.failed with
      | false => rfl
      | true => exact absurd hb hf
    refine ⟨?_, ?_, fun _ => rfl⟩
    · intro hft _
      exact absurd hft hf
    · intro xi hft _
      exact absurd hft hf

/-- C3 amended: a projected record carries its owning run index; on failure
with exception info present it carries the formatted diagnostic, the failing
stage and the stage directory (outputdir null); on failure with no exception
info all four of those fields stay null; on success it carries the output
directory (stagedir and failing fields null).  So outputdir is set only on
success, and stagedir only on a failure that has exception info. -/
theorem C3_projected_fields (fmt : Fmt) (i : Nat) (t : TaskRecord) (e : Entry)
    (h : entryOf fmt i t = Except.ok e) :
    e.run_no = i ∧
    (t.failed = true → t.exc_info = none →
      e.failing_reason = none ∧ e.failing_phase = none ∧ e.stagedir = none ∧
      e.outputdir = none ∧ e.result = "fail") ∧
    (∀ xi, t.failed = true → t.exc_info = some xi →
      ∃ r, fmt xi = Except.ok r ∧ e.failing_reason = some r ∧
        e.failing_phase = some t.failed_stage ∧ e.stagedir = some t.check.stagedir ∧
        e.outputdir = none ∧ e.result = "fail") ∧
    (t.failed = false →
      e.outputdir = some t.check.outputdir ∧ e.stagedir = none ∧
      e.failing_reason = none ∧ e.failing_phase = none ∧ e.result = "success") := by
  unfold entryOf at h
  cases hc : entryCore fmt t with
  | error er =>
    rw [hc] at h
    cases h
  | ok e0 =>
    rw [hc] at h
    obtain rfl := Except.ok.inj h
    unfold entryCore at hc
    cases hjb : entryJob t.check (entryBase t.check) with
    | error er =>
      rw [hjb] at hc
      cases hc
    | ok e1 =>
      rw [hjb] at hc
      obtain ⟨hb1, hb2, hb3, hb4⟩ := entryJob_base_fields t.check e1 hjb
      obtain ⟨hd1, hd2, hd3, hd4⟩ := entryBuild_fields t.check e1
      have hbf1 : (entryBuild t.check e1).failing_reason = none := by rw [hd1]; exact hb1
      have hbf2 : (entryBuild t.check e1).failing_phase = none := by rw [hd2]; exact hb2
      have hbf3 : (entryBuild t.check e1).outputdir = none := by rw [hd3]; exact hb3
      have hbf4 : (entryBuild t.check e1).stagedir = none := by rw [hd4]; exact hb4
      obtain ⟨o1, o2, o3⟩ := entryOutcome_cases fmt t (entryBuild t.check e1) e0 hc
      refine ⟨rfl, ?_, ?_, ?_⟩
      · intro hft hxn
        have he0 := o1 hft hxn
        subst he0
        exact ⟨hbf1, hbf2, hbf4, hbf3, rfl⟩
      · intro xi hft hxi
        obtain ⟨r, hr, he0⟩ := o2 xi hft hxi
        subst he0
        exact ⟨r, hr, rfl, rfl, rfl, hbf3, rfl⟩
      · intro hf0
        have he0 := o3 hf0
        subst he0
        exact ⟨rfl, hbf4, hbf1, hbf2, rfl⟩

/-- C3 counterexample: `c3Task` failed but carries no exception info; its
projected record leaves failing_reason, failing_phase and stagedir all null,
falsifying the claim that every failed task's record carries the formatted
diagnostic text, the failing stage and the stage directory. -/
theorem C3_counterexample :
    c3Task.failed = true ∧ entryOf idFmt 0 c3Task = Except.ok c3Entry ∧
    c3Entry.failing_reason = none ∧ c3Entry.failing_phase = none ∧
    c3Entry.stagedir = none := by
  decide

/-- Witness for C3: the amended statement applied to a concrete projection. -/
theorem C3_witness :
    c7Rec.run_no = 0 ∧
    (passTask.failed = false →
      c7Rec.outputdir = some passTask.check.outputdir ∧ c7Rec.stagedir = none ∧
      c7Rec.failing_reason = none ∧ c7Rec.failing_phase = none ∧
      c7Rec.result = "success") := by
  have hx := C3_projected_fields idFmt 0 passTask c7Rec (by decide)
  exact ⟨hx.1, hx.2.2.2⟩

theorem entryOf_run_no (fmt : Fmt) (i : Nat) (t : TaskRecord) (e : Entry)
    (h : entryOf fmt i t = Except.ok e) : e.run_no = i := by
  unfold entryOf at h
  cases hc : entryCore fmt t with
  | error er =>
    rw [hc] at h
    cases h
  | ok e0 =>
    rw [hc] at h
    obtain rfl := Except.ok.inj h
    rfl

theorem entriesOfRun_spec (fmt : Fmt) (i : Nat) :
    ∀ (ts : List TaskRecord) (es : List Entry), entriesOfRun fmt i ts = Except.ok es →
      es.length = ts.length ∧ es.map Entry.run_no = List.replicate ts.length i := by
  intro ts
  induction ts with
  | nil =>
    intro es h
    obtain rfl := Except.ok.inj h
    exact ⟨rfl, rfl⟩
  | cons t ts2 ih =>
    intro es h
    unfold entriesOfRun at h
    cases he : entryOf fmt i t with
    | error er =>
      rw [he] at h
      cases h
    | ok e =>
      rw [he] at h
      cases hr : entriesOfRun fmt i ts2 with
      | error er =>
        rw [hr] at h
        cases h
      | ok es2 =>
        rw [hr] at h
        obtain rfl := Except.ok.inj h
        obtain ⟨ihl, ihm⟩ := ih es2 hr
        constructor
        · simp [ihl]
        · simp [ihm, entryOf_run_no fmt i t e he, List.replicate_succ]

theorem jsonAux_spec (fmt : Fmt) :
    ∀ (rs : List (List TaskRecord)) (i : Nat) (recs : List Entry),
      jsonAux fmt i rs = Except.ok recs →
      recs.length = numTasks rs ∧ recs.map Entry.run_no = runNoSeq i rs := by
  intro rs
  induction rs with
  | nil =>
    intro i recs h
    obtain rfl := Except.ok.inj h
    exact ⟨rfl, rfl⟩
  | cons run rest ih =>
    intro i recs h
    unfold jsonAux at h
    cases he : entriesOfRun fmt i run with
    | error er =>
      rw [he] at h
      cases h
    | ok es =>
      rw [he] at h
      cases hr : jsonAux fmt (i + 1) rest with
      | error er =>
        rw [hr] at h
        cases h
      | ok es2 =>
        rw [hr] at h
        obtain rfl := Except.ok.inj h
        obtain ⟨hl1, hm1⟩ := entriesOfRun_spec fmt i run es he
        obtain ⟨hl2, hm2⟩ := ih (i + 1) es2 hr
        constructor
        · simp [numTasks, hl1, hl2]
        · simp [runNoSeq, hm1, hm2]

/-- C7: whenever the projector succeeds it emits exactly one record per task
record — the record count is the sum over all runs of the run's task count —
and the sequence of run_no fields is exactly the runs' indices, each repeated
once per task of that run, in arrival order. -/
theorem C7_projection (fmt : Fmt) (rs : List (List TaskRecord)) (recs : List Entry)
    (h : json fmt rs = Except.ok recs) :
    recs.length = numTasks rs ∧ recs.map Entry.run_no = runNoSeq 0 rs :=
  jsonAux_spec fmt rs 0 recs h

/-- Witness for C7: a two-run store with one passed task per run. -/
theorem C7_witness :
    ([c7Rec, c7Rec1].length = numTasks [[passTask], [passTask]]) ∧
    [c7Rec, c7Rec1].map Entry.run_no = runNoSeq 0 [[passTask], [passTask]] :=
  C7_projection idFmt [[passTask], [passTask]] [c7Rec, c7Rec1] (by decide)

theorem orElseOpt_assoc (a b c : Option String) :
    orElseOpt a (orElseOpt b c) = orElseOpt (orElseOpt a b) c := by
  cases a <;> cases b <;> rfl

theorem orElseOpt_none_right (a : Option String) : orElseOpt a none = a := by
  cases a <;> rfl

theorem alookup_upsert_self (m : List (String × String)) (k v : String) :
    alookup (upsert m k v) k = some v := by
  induction m with
  | nil => simp [upsert, alookup]
  | cons p rest ih =>
    by_cases hp : p.1 = k
    · simp [upsert, alookup, hp]
    · simp [upsert, alookup, hp, ih]

theorem alookup_upsert_ne (m : List (String × String)) (k v key : String)
    (h : ¬ k = key) : alookup (upsert m k v) key = alookup m key := by
  induction m with
  | nil => simp [upsert, alookup, h]
  | cons p rest ih =>
    by_cases hp : p.1 = k
    · have hpk : ¬ p.1 = key := by rw [hp]; exact h
      simp [upsert, alookup, hp, hpk, h]
    · by_cases hpkey : p.1 = key
      · have hkk : ¬ key = k := fun hh => h hh.symm
        simp [upsert, alookup, hp, hpkey, hkk]
      · simp [upsert, alookup, hp, hpkey, ih]

theorem lastMsgAux_cons (key : String) (p : Nat × TaskRecord)
    (l : List (Nat × TaskRecord)) :
    lastMsgAux key (p :: l) = orElseOpt (lastMsgAux key l)
      (if retryKey p.2 = key then some (retryMsg p.1 p.2) else none) := rfl

theorem lastMsgAux_append (key : String) (xs ys : List (Nat × TaskRecord)) :
    lastMsgAux key (xs ++ ys) =
      orElseOpt (lastMsgAux key ys) (lastMsgAux key xs) := by
  induction xs with
  | nil =>
    rw [List.nil_append]
    exact (orElseOpt_none_right _).symm
  | cons p xs2 ih =>
    rw [List.cons_append, lastMsgAux_cons, lastMsgAux_cons, ih]
    exact (orElseOpt_assoc _ _ _).symm

theorem alookup_foldl_run (i : Nat) (key : String) :
    ∀ (ts : List TaskRecord) (m : List (String × String)),
      alookup (ts.foldl (fun m2 t => upsert m2 (retryKey t) (retryMsg i t)) m) key
        = orElseOpt (lastMsgAux key (ts.map (fun t => (i, t)))) (alookup m key) := by
  intro ts
  induction ts with
  | nil =>
    intro m
    rfl
  | cons t ts2 ih =>
    intro m
    rw [List.foldl_cons, List.map_cons, lastMsgAux_cons]
    rw [ih (upsert m (retryKey t) (retryMsg i t))]
    rw [← orElseOpt_assoc]
    cases lastMsgAux key (ts2.map (fun t2 => (i, t2))) with
    | some v => rfl
    | none =>
      by_cases hk : retryKey t = key
      · simp [hk, orElseOpt, alookup_upsert_self]
      · simp [hk, orElseOpt, alookup_upsert_ne m (retryKey t) (retryMsg i t) key hk]

theorem alookup_retryMsgsAux (key : String) :
    ∀ (runs : List (List TaskRecord)) (i : Nat) (m : List (String × String)),
      alookup (retryMsgsAux i runs m) key =
        orElseOpt (lastMsgAux key (retryPairsAux i runs)) (alookup m key) := by
  intro runs
  induction runs with
  | nil =>
    intro i m
    rfl
  | cons run rest ih =>
    intro i m
    unfold retryMsgsAux retryPairsAux
    rw [ih (i + 1), lastMsgAux_append, alookup_foldl_run, orElseOpt_assoc]

theorem alookup_retryMessages (rs : List (List TaskRecord)) (key : String) :
    alookup (retryMessages rs) key = lastMsgFor rs key := by
  unfold retryMessages lastMsgFor retryPairs
  rw [alookup_retryMsgsAux]
  exact orElseOpt_none_right _

theorem upsert_keys (k v : String) :
    ∀ (m : List (String × String)), (upsert m k v).map Prod.fst =
      if k ∈ m.map Prod.fst then m.map Prod.fst else m.map Prod.fst ++ [k] := by
  intro m
  induction m with
  | nil => simp [upsert]
  | cons p rest ih =>
    by_cases hp : p.1 = k
    · simp [upsert, hp]
    · have hkp : ¬ k = p.1 := fun hh => hp hh.symm
      by_cases hm : k ∈ rest.map Prod.fst
      · simp [upsert, hp, ih, hm, hkp]
      · simp [upsert, hp, ih, hm, hkp]

theorem upsert_keys_nodup (k v : String) (m : List (String × String))
    (h : (m.map Prod.fst).Nodup) : ((upsert m k v).map Prod.fst).Nodup := by
  rw [upsert_keys]
  by_cases hm : k ∈ m.map Prod.fst
  · rw [if_pos hm]
    exact h
  · rw [if_neg hm]
    simp [List.nodup_append, h, hm]

theorem foldl_run_keys_nodup (i : Nat) :
    ∀ (ts : List TaskRecord) (m : List (String × String)), (m.map Prod.fst).Nodup →
      ((ts.foldl (fun m2 t => upsert m2 (retryKey t) (retryMsg i t)) m).map Prod.fst).Nodup := by
  intro ts
  induction ts with
  | nil =>
    intro m h
    exact h
  | cons t ts2 ih =>
    intro m h
    rw [List.foldl_cons]
    exact ih _ (upsert_keys_nodup _ _ m h)

theorem retryMsgsAux_keys_nodup :
    ∀ (runs : List (List TaskRecord)) (i : Nat) (m : List (String × String)),
      (m.map Prod.fst).Nodup → ((retryMsgsAux i runs m).map Prod.fst).Nodup := by
  intro runs
  induction runs with
  | nil =>
    intro i m h
    exact h
  | cons run rest ih =>
    intro i m h
    unfold retryMsgsAux
    exact ih (i + 1) _ (foldl_run_keys_nodup i run m h)

theorem retryMessages_keys_nodup (rs : List (List TaskRecord)) :
    ((retryMessages rs).map Prod.fst).Nodup :=
  retryMsgsAux_keys_nodup (rs.drop 1) 1 [] (by simp)

theorem alookup_mem (key v : String) :
    ∀ (m : List (String × String)), alookup m key = some v → key ∈ m.map Prod.fst := by
  intro m
  induction m with
  | nil =>
    intro h
    cases h
  | cons p rest ih =>
    intro h
    unfold alookup at h
    by_cases hp : p.1 = key
    · simp [hp]
    · rw [if_neg hp] at h
      simp [ih h]

/-- C6 amended: the retry report keys entries by the colon-joined string
`name:partition:environment` (distinct tuples whose components contain colons
can collide).  For every such string key occurring in any retried run, the
single kept message is that of the last visited occurrence — the highest run
number, and the latest task inside that run; the report shows exactly one
line per string key, and the lines are sorted lexicographically by key. -/
theorem C6_retry_overwrite (rs : List (List TaskRecord)) (key : String)
    (h : lastMsgFor rs key ≠ none) :
    alookup (retryMessages rs) key = lastMsgFor rs key ∧
    (sortedRetryKeys rs).count key = 1 ∧
    List.Sorted (fun a b => a ≤ b) (sortedRetryKeys rs) ∧
    retryLines rs = (sortedRetryKeys rs).map (fun k => (alookup (retryMessages rs) k).getD "") ∧
    (∀ cr : Nat, cr ≠ 0 → retry_report cr rs = String.intercalate "\n"
      ([strRep "=" 78, "SUMMARY OF RETRIES", strRep "-" 78] ++ retryLines rs)) := by
  have h1 := alookup_retryMessages rs key
  refine ⟨h1, ?_, ?_, rfl, ?_⟩
  · obtain ⟨v, hv⟩ : ∃ v, lastMsgFor rs key = some v := by
      cases hl : lastMsgFor rs key with
      | none => exact absurd hl h
      | some v => exact ⟨v, rfl⟩
    have hmem : key ∈ (retryMessages rs).map Prod.fst :=
      alookup_mem key v (retryMessages rs) (by rw [h1, hv])
    have hperm := List.perm_insertionSort (fun a b => a ≤ b) ((retryMessages rs).map Prod.fst)
    have hnd := retryMessages_keys_nodup rs
    unfold sortedRetryKeys
    rw [List.Perm.count_eq hperm]
    exact List.count_eq_one_of_mem hnd hmem
  · exact List.sorted_insertionSort _ _
  · intro cr hcr
    unfold retry_report
    rw [if_neg hcr]

/-- C6 counterexample: the tuple key of `c6T1`/`c6T2` — test `a`, partition
`b:c`, empty environment — occurs in retried runs 1 and 2, so the claim
demands exactly one line for it reporting run 2's outcome (`passed`).  But
`c6T3` (test `a:b`, partition `c`), although a different tuple, collides
with it on the colon-joined string key and is visited later, so the only
line of the report is c6T3's `failed` message and no line reports the
tuple's outcome at all. -/
theorem C6_counterexample :
    specRetryKey c6T1 = specRetryKey c6T2 ∧
    specRetryKey c6T1 ≠ specRetryKey c6T3 ∧
    c6T1 ∈ List.getD c6Store 1 [] ∧
    c6T2 ∈ List.getD c6Store 2 [] ∧
    c6T3 ∈ List.getD c6Store 2 [] ∧
    retryLines c6Store = ["  * Test a:b was retried 2 time(s) and failed."] ∧
    ¬ ("  * Test a was retried 2 time(s) and passed." ∈ retryLines c6Store) := by
  decide

/-- Witness for C6: the amended statement applied to a one-retry store. -/
theorem C6_witness : (sortedRetryKeys [[], [c6T1]]).count "a:b:c:" = 1 :=
  (C6_retry_overwrite [[], [c6T1]] "a:b:c:" (by decide)).2.1
